import Mathlib

set_option linter.unusedVariables false

/-!
Shallow embedding of `src/chatgpt-view-provider-zh.ts` (class `ChatGptViewProvider`):
the provider state, the outbound webview messages, the request/response lifecycle
(`sendApiRequest`), the control operations (`stopGenerating`, `clearSession`, the
configuration setters), and the webview message buffering (`sendMessage` /
`resolveWebviewView`).

Modelling conventions:
* Mutable fields of the class become a `ProviderState` record threaded explicitly.
* The two API client instances (`apiGpt3`, `apiGpt35`) are tracked by presence only
  (`Bool`); no claim depends on client internals, which live outside this file's source.
* Calls to `this.sendMessage(...)` are recorded in order as a `List SentMsg`
  (payload plus the `ignoreMessageIfNullWebView` flag); the webview-side effect of
  `sendMessage` is modelled separately by `WebViewSink`.
* The API client (imported from `../chatgpt-4.7.2` / `../chatgpt-5.1.1`, not part of
  this file) is an environment: an `Outcome` says which progress chunks arrive and
  whether the awaited call resolves, throws, or is aborted by `stopGenerating`.
* JavaScript falsy `undefined` / empty-option values are modelled as `none`.
-/

/-- Outbound webview message payloads: the tagged objects passed to `sendMessage`
(lines 159-161, 306, 350, 353, 365, 377, 399, 444, 449 of the source).
A missing `done` / `showStopButton` field (JS `undefined`, falsy) is modelled
as `false`; a possibly-`undefined` id or error text is an `Option`. -/
inductive Msg where
  | showInProgress (inProgress : Bool) (showStopButton : Bool)
  | addQuestion (value : String) (code : Option String) (autoScroll : Bool)
  | addResponse (value : String) (done : Bool) (id : Option String) (autoScroll : Bool)
      (responseInMarkdown : Bool)
  | addError (value : Option String) (autoScroll : Bool)
  | loginSuccessful (showConversations : Bool)
  deriving DecidableEq, Repr

/-- Message paired with the `ignoreMessageIfNullWebView` flag it was sent with. -/
abbrev SentMsg := Msg × Bool

/-- Mutable fields of `ChatGptViewProvider` (lines 28-48). API clients are tracked
by presence; `hasAbortController` / `aborted` model `this.abortController` and
whether `abort()` has been called on it. -/
@[ext]
structure ProviderState where
  subscribeToResponse : Bool
  autoScroll : Bool
  useAutoLogin : Bool
  useGpt3 : Bool
  chromiumPath : Option String
  profilePath : Option String
  model : Option String
  apiGpt3 : Bool
  apiGpt35 : Bool
  conversationId : Option String
  messageId : Option String
  proxyServer : Option String
  loginMethod : Option String
  authType : Option String
  questionCounter : Nat
  inProgress : Bool
  hasAbortController : Bool
  aborted : Bool
  currentMessageId : String
  response : String
  deriving DecidableEq, Repr

/-- Embeds JavaScript `String.prototype.startsWith` as a prefix check on the
character list. -/
def strStartsWith (s pat : String) : Bool := pat.data.isPrefixOf s.data

/-- Getter `isCodexModel` (lines 223-225): `!!this.model?.startsWith("code-")`. -/
def isCodexModel (st : ProviderState) : Bool :=
  match st.model with
  | some m => strStartsWith m "code-"
  | none => false

/-- Getter `isGpt35Model` (lines 227-229): `!!this.model?.startsWith("gpt-")`. -/
def isGpt35Model (st : ProviderState) : Bool :=
  match st.model with
  | some m => strStartsWith m "gpt-"
  | none => false

/-- Method `stopGenerating` (lines 156-163): abort the controller if present, clear
the in-flight flag, publish `showInProgress` (inProgress=false, no stop button) and
a terminal `addResponse` carrying the accumulated `this.response`. -/
def stopGenerating (st : ProviderState) : ProviderState × List SentMsg :=
  let st := { st with aborted := st.aborted || st.hasAbortController, inProgress := false }
  (st, [(Msg.showInProgress false false, false),
        (Msg.addResponse st.response true (some st.currentMessageId) st.autoScroll
          (!isCodexModel st), false)])

/-- Method `clearSession` (lines 165-171): stop generating, drop the GPT-3 client
(`this.apiGpt3 = undefined`; note the source does not touch `apiGpt35`), and unset
both continuation identifiers. -/
def clearSession (st : ProviderState) : ProviderState × List SentMsg :=
  let r := stopGenerating st
  ({ r.1 with apiGpt3 := false, messageId := none, conversationId := none }, r.2)

/-- Workspace-configuration values the constructor and setters read
(`vscode.workspace.getConfiguration("chatgpt")`). `platformDefaultChromePath`
stands for the `os.platform()` / `fs.existsSync` fallback computed in
`setChromeExecutablePath` (lines 191-212), which depends on the host platform. -/
structure ExtensionConfig where
  subscribeToResponse : Bool
  autoScroll : Bool
  model : Option String
  proxyServer : Option String
  chromiumPath : Option String
  profilePath : Option String
  method : Option String
  authenticationType : Option String
  platformDefaultChromePath : String
  deriving DecidableEq, Repr

/-- Method `setProxyServer` (lines 173-175): updates the field, no session reset. -/
def setProxyServer (cfg : ExtensionConfig) (st : ProviderState) : ProviderState × List SentMsg :=
  ({ st with proxyServer := cfg.proxyServer }, [])

/-- Method `setMethod` (lines 177-183): store the login method, force
`useGpt3 = true`, `useAutoLogin = false`, then `clearSession()`. -/
def setMethod (cfg : ExtensionConfig) (st : ProviderState) : ProviderState × List SentMsg :=
  clearSession { st with loginMethod := cfg.method, useGpt3 := true, useAutoLogin := false }

/-- Method `setAuthType` (lines 185-188): store the auth type, then `clearSession()`. -/
def setAuthType (cfg : ExtensionConfig) (st : ProviderState) : ProviderState × List SentMsg :=
  clearSession { st with authType := cfg.authenticationType }

/-- Method `setChromeExecutablePath` (lines 190-216): configured path or the
platform default, then `clearSession()`. -/
def setChromeExecutablePath (cfg : ExtensionConfig) (st : ProviderState) :
    ProviderState × List SentMsg :=
  clearSession
    { st with chromiumPath := some (cfg.chromiumPath.getD cfg.platformDefaultChromePath) }

/-- Method `setProfilePath` (lines 218-221): store the profile path, then
`clearSession()`. -/
def setProfilePath (cfg : ExtensionConfig) (st : ProviderState) : ProviderState × List SentMsg :=
  clearSession { st with profilePath := cfg.profilePath }

/-- Field values at object creation, before the constructor body runs
(lines 44-48 initialisers and the three config reads at lines 56-58). -/
def initialState (cfg : ExtensionConfig) : ProviderState where
  subscribeToResponse := cfg.subscribeToResponse
  autoScroll := cfg.autoScroll
  useAutoLogin := false
  useGpt3 := false
  chromiumPath := none
  profilePath := none
  model := cfg.model
  apiGpt3 := false
  apiGpt35 := false
  conversationId := none
  messageId := none
  proxyServer := none
  loginMethod := none
  authType := none
  questionCounter := 0
  inProgress := false
  hasAbortController := false
  aborted := false
  currentMessageId := ""
  response := ""

/-- Constructor body (lines 55-65): `setMethod(); setChromeExecutablePath();
setProfilePath(); setProxyServer(); setAuthType();` in source order, collecting
every message the nested `clearSession()` calls publish. -/
def construct (cfg : ExtensionConfig) : ProviderState × List SentMsg :=
  let r1 := setMethod cfg (initialState cfg)
  let r2 := setChromeExecutablePath cfg r1.1
  let r3 := setProfilePath cfg r2.1
  let r4 := setProxyServer cfg r3.1
  let r5 := setAuthType cfg r4.1
  (r5.1, r1.2 ++ r2.2 ++ r3.2 ++ r4.2 ++ r5.2)

/-- Method `processQuestion` (lines 315-321). The JS template guard `language ?`
treats the empty string as falsy, hence the `isEmpty` check. -/
def processQuestion (question : String) (code : Option String) (language : Option String) :
    String :=
  match code with
  | some c =>
      (question ++
        (match language with
         | some l =>
             if l.isEmpty then ""
             else " (The following code is in " ++ l ++ " programming language)"
         | none => "") ++ ": " ++ c) ++ "\r\n"
  | none => question ++ "\r\n"

/-- Scanner counting the separators JS `split` consumes for the literal separator
of three backticks: a greedy left-to-right scan matches `run / 3` separators inside
every maximal run of consecutive backticks (`run` is the length of the backtick run
currently being read). Structural recursion so the kernel can evaluate it. -/
def fenceScan : List Char → Nat → Nat
  | [], run => run / 3
  | c :: cs, run =>
      if c = '\x60' then fenceScan cs (run + 1) else run / 3 + fenceScan cs 0

/-- Number of triple-backtick fence markers a greedy scan finds in a text: the
number of separators `response.split` on three backticks consumes, which is its
part count minus one. -/
def fenceCount (response : String) : Nat := fenceScan response.data 0

/-- Line 387: `((this.response.split(sep).length) % 2) === 1` for the
triple-backtick separator, with the JS part count written as `fenceCount + 1`. -/
def hasContinuation (response : String) : Bool :=
  (fenceCount response + 1) % 2 == 1

/-- Method `prepareConversation` (lines 231-309) for `modelChanged` and the
availability of an API key (`apiKeyOk` models a truthy
`configuration.get("gpt3.apiKey") || state.get("chatgpt-gpt3-apiKey")`).
Returns the success flag, the updated state, and the messages sent. The
interactive error popup shown when the key is missing goes through
`showErrorMessage`, not `sendMessage`, so it publishes nothing. -/
def prepareConversation (st : ProviderState) (modelChanged : Bool) (apiKeyOk : Bool) :
    Bool × ProviderState × List SentMsg :=
  if modelChanged && st.useAutoLogin then (false, st, [])
  else if st.useGpt3 then
    if (isGpt35Model st && !st.apiGpt35) || (!isGpt35Model st && !st.apiGpt3) || modelChanged then
      if !apiKeyOk then (false, st, [])
      else
        let st :=
          if isGpt35Model st then { st with apiGpt35 := true } else { st with apiGpt3 := true }
        (true, st, [(Msg.loginSuccessful st.useAutoLogin, true)])
    else (true, st, [(Msg.loginSuccessful st.useAutoLogin, true)])
  else (true, st, [(Msg.loginSuccessful st.useAutoLogin, true)])

/-- Fields of a thrown client error the catch handler (lines 406-445) inspects.
`apiMessage` collapses the chain
`error?.response?.data?.error?.message || error?.tostring?.() || error?.message || error?.name`;
falsy (absent, empty, zero) values are `none`. -/
structure ApiError where
  responseStatus : Option Nat
  responseStatusText : Option String
  statusCode : Option Nat
  apiMessage : Option String
  deriving DecidableEq, Repr

/-- Line 413: `` `${error?.response?.status || ""} ${error?.response?.statusText || ""}` ``. -/
def statusLineText (e : ApiError) : String :=
  (match e.responseStatus with | some n => toString n | none => "") ++ " " ++
  (match e.responseStatusText with | some s => s | none => "")

/-- Line 423 message (interpolates `loginMethod` and `model`; JS renders an unset
field as the string "undefined"). -/
def http400Message (st : ProviderState) : String :=
  "Your method: '" ++ st.loginMethod.getD "undefined" ++ "' and your model: '" ++
    st.model.getD "undefined" ++
    "' may be incompatible or one of your parameters is unknown. Reset your settings to default. (HTTP 400 Bad Request)"

/-- Line 426 message. -/
def http401Message : String :=
  "Make sure you are properly signed in. If you are using Browser Auto-login method, make sure the browser is open (You could refresh the browser tab manually if you face any issues, too). If you stored your API key in settings.json, make sure it is accurate. If you stored API key in session, you can reset it with `ChatGPT: 重置会话` command. (HTTP 401 Unauthorized) Potential reasons: \r\n- 1.Invalid Authentication\r\n- 2.Incorrect API key provided.\r\n- 3.Incorrect Organization provided. \r\n See https://platform.openai.com/docs/guides/error-codes for more details."

/-- Line 428 message. -/
def http403Message : String :=
  "Your token has expired. Please try authenticating again. (HTTP 403 Forbidden)"

/-- Line 430 message. -/
def http404Message (st : ProviderState) : String :=
  "Your method: '" ++ st.loginMethod.getD "undefined" ++ "' and your model: '" ++
    st.model.getD "undefined" ++
    "' may be incompatible or you may have exhausted your ChatGPT subscription allowance. (HTTP 404 Not Found)"

/-- Line 432 message. -/
def http429Message : String :=
  "Too many requests try again later. (HTTP 429 Too Many Requests) Potential reasons: \r\n 1. You exceeded your current quota, please check your plan and billing details\r\n 2. You are sending requests too quickly \r\n 3. The engine is currently overloaded, please try again later. \r\n See https://platform.openai.com/docs/guides/error-codes for more details."

/-- Line 434 message. -/
def http500Message : String :=
  "The server had an error while processing your request, please try again. (HTTP 500 Internal Server Error)\r\n See https://platform.openai.com/docs/guides/error-codes for more details."

/-- Error-to-text mapping of the catch handler (lines 407-442): status line when the
error has an HTTP response, else the fixed message for a known `statusCode`, and the
raw `apiMessage` appended on the template of lines 438-441. The result can be
`none` (an `addError` whose `value` is JS `undefined`). -/
def errorText (st : ProviderState) (e : ApiError) : Option String :=
  let message : Option String :=
    if e.responseStatus.isSome || e.responseStatusText.isSome then some (statusLineText e)
    else if e.statusCode = some 400 then some (http400Message st)
    else if e.statusCode = some 401 then some http401Message
    else if e.statusCode = some 403 then some http403Message
    else if e.statusCode = some 404 then some (http404Message st)
    else if e.statusCode = some 429 then some http429Message
    else if e.statusCode = some 500 then some http500Message
    else none
  match e.apiMessage with
  | some am =>
      some ((match message with | some m => m ++ " " | none => "") ++ "\n\n\t" ++ am ++ "\n")
  | none => message

/-- Behaviour of the awaited client call, seen from the provider. `success` carries
the final text and the new continuation identifiers the client returns, plus the
cumulative texts handed to `onProgress` along the way. `failure` is a thrown error
after some progress. `aborted` is a `stopGenerating()` arriving mid-stream: chunks
delivered before the abort, chunks the client may still deliver after the abort
(cancellation is cooperative; the spec requires assuming callbacks interleave with
the cancellation signal), and the abort error the awaited promise rejects with. -/
inductive Outcome where
  | success (text : String) (newConversationId : Option String)
      (newParentMessageId : Option String) (progress : List String)
  | failure (progress : List String) (err : ApiError)
  | aborted (progressBefore : List String) (progressAfter : List String) (err : ApiError)
  deriving DecidableEq, Repr

/-- True exactly for `Outcome.success`. -/
def Outcome.isSuccess : Outcome → Bool
  | Outcome.success _ _ _ _ => true
  | _ => false

/-- Environment of one `sendApiRequest` run: API key resolvability (inside
`prepareConversation`), the value of `getRandomId()` (line 351), and the client
call's behaviour. -/
structure ReqEnv where
  apiKeyOk : Bool
  freshId : String
  outcome : Outcome
  deriving DecidableEq, Repr

/-- Message one `onProgress` callback publishes (lines 363-366 and 375-378): a
partial `addResponse` with no `done` field, whose `id` is `this.conversationId`
on the GPT-3.5 path and `this.messageId` on the legacy path. -/
def progressMsg (idField : Option String) (autoScroll rim : Bool) (t : String) : SentMsg :=
  (Msg.addResponse t false idField autoScroll rim, false)

/-- State effect of a run of `onProgress` callbacks: each sets
`this.response = partialResponse.text`, so only the last cumulative text remains. -/
def applyProgress (st : ProviderState) (ps : List String) : ProviderState :=
  match ps.getLast? with
  | some t => { st with response := t }
  | none => st

/-- Result of the awaited client call: state and messages produced while it ran,
and the error it threw, if any. -/
structure ClientResult where
  st : ProviderState
  msgs : List SentMsg
  err : Option ApiError
  deriving DecidableEq, Repr

/-- One client invocation (the `await ... sendMessage(question, ...)` of lines
358-367 or 370-379) under an `Outcome`. On `success` the destructuring assignment
stores the final text and the new `{conversationId, messageId}`. On `aborted`, the
externally invoked `stopGenerating()` runs between the early and the late progress
chunks, and the call then rejects. -/
def runClientCall (st : ProviderState) (idField : Option String) (rim : Bool) (o : Outcome) :
    ClientResult :=
  match o with
  | Outcome.success text newCid newMid ps =>
      let st1 := applyProgress st ps
      ⟨{ st1 with response := text, conversationId := newCid, messageId := newMid },
       ps.map (progressMsg idField st.autoScroll rim), none⟩
  | Outcome.failure ps e =>
      ⟨applyProgress st ps, ps.map (progressMsg idField st.autoScroll rim), some e⟩
  | Outcome.aborted psB psA e =>
      let st1 := applyProgress st psB
      let r := stopGenerating st1
      ⟨applyProgress r.1 psA,
       psB.map (progressMsg idField st.autoScroll rim) ++ r.2 ++
         psA.map (progressMsg idField st.autoScroll rim), some e⟩

/-- Which client branch lines 357 / 369 select. -/
inductive Route where
  | gpt35
  | gpt3
  | noClient
  deriving DecidableEq, Repr

/-- Branch conditions of lines 357 and 369: `isGpt35Model && apiGpt35`, else
`!isGpt35Model && apiGpt3`, else no client call at all. -/
def routeFor (st : ProviderState) : Route :=
  if isGpt35Model st && st.apiGpt35 then Route.gpt35
  else if !isGpt35Model st && st.apiGpt3 then Route.gpt3
  else Route.noClient

/-- Try-block client dispatch (lines 356-381), guarded by `if (this.useGpt3)`.
`question` is the processed prompt handed to the client; the client's behaviour
is supplied by the `Outcome`. -/
def clientPhase (st : ProviderState) (question : String) (rim : Bool) (o : Outcome) :
    ClientResult :=
  if st.useGpt3 then
    match routeFor st with
    | Route.gpt35 => runClientCall st st.conversationId rim o
    | Route.gpt3 => runClientCall st st.messageId rim o
    | Route.noClient => ⟨st, [], none⟩
  else ⟨st, [], none⟩

/-- Tail of `sendApiRequest` after the client call: the success continuation
(lines 383-399: previous-answer join, continuation heuristic and fence append,
terminal `addResponse`) or the catch handler (lines 406-445: one `addError`),
followed in both cases by the `finally` block (lines 447-450). The
continuation-offer popup and the notification popup use `showInformationMessage`,
not `sendMessage`, and the follow-up request they may trigger is a separate,
later call. -/
def requestTail (rim : Bool) (previousAnswer : Option String) (cr : ClientResult) :
    ProviderState × List SentMsg :=
  match cr.err with
  | none =>
      let st := cr.st
      let st :=
        match previousAnswer with
        | some pa => { st with response := pa ++ st.response }
        | none => st
      let st :=
        if hasContinuation st.response then
          { st with response := st.response ++ " \r\n ```\r\n" }
        else st
      ({ st with inProgress := false },
       [(Msg.addResponse st.response true (some st.currentMessageId) st.autoScroll rim, false),
        (Msg.showInProgress false false, false)])
  | some e =>
      ({ cr.st with inProgress := false },
       [(Msg.addError (errorText cr.st e) cr.st.autoScroll, false),
        (Msg.showInProgress false false, false)])

/-- Arguments of `sendApiRequest` beyond the prompt (line 323). -/
structure RequestOptions where
  command : String
  code : Option String
  previousAnswer : Option String
  language : Option String
  deriving DecidableEq, Repr

/-- Method `sendApiRequest` (lines 323-451): in-flight guard, question counter,
`prepareConversation`, state reset, `showInProgress` / `addQuestion`
publications, client dispatch, and the success/catch/finally tail. The
webview-focus command (lines 342-346) does not publish through `sendMessage`. -/
def sendApiRequest (st0 : ProviderState) (prompt : String) (opts : RequestOptions)
    (env : ReqEnv) : ProviderState × List SentMsg :=
  if st0.inProgress then (st0, [])
  else
    let stq := { st0 with questionCounter := st0.questionCounter + 1 }
    let pr := prepareConversation stq false env.apiKeyOk
    if !pr.1 then (pr.2.1, pr.2.2)
    else
      let st1 :=
        { pr.2.1 with
          response := "", inProgress := true, hasAbortController := true, aborted := false,
          currentMessageId := env.freshId }
      let question := processQuestion prompt opts.code opts.language
      let rim := !isCodexModel st1
      let head :=
        pr.2.2 ++
          [(Msg.showInProgress true st1.useGpt3, false),
           (Msg.addQuestion prompt opts.code st1.autoScroll, false)]
      let cr := clientPhase st1 question rim env.outcome
      let tl := requestTail rim opts.previousAnswer cr
      (tl.1, head ++ cr.msgs ++ tl.2)

/-- Webview attachment and delivery state backing `sendMessage` and
`resolveWebviewView`: whether `this.webView` is set, the messages actually posted,
and `this.leftOverMessage`. -/
@[ext]
structure WebViewSink where
  attached : Bool
  delivered : List Msg
  leftOver : Option Msg
  deriving DecidableEq, Repr

/-- Method `sendMessage` (lines 458-464): post when the webview is attached, else
retain the message in `leftOverMessage` unless `ignoreMessageIfNullWebView`. -/
def sendMessage (sink : WebViewSink) (message : Msg) (ignoreMessageIfNullWebView : Bool) :
    WebViewSink :=
  if sink.attached then { sink with delivered := sink.delivered ++ [message] }
  else if !ignoreMessageIfNullWebView then { sink with leftOver := some message }
  else sink

/-- Attachment step of `resolveWebviewView` relevant to buffering (lines 72 and
149-153): set the webview, then flush a pending `leftOverMessage` through
`sendMessage` and null it out. -/
def resolveWebviewView (sink : WebViewSink) : WebViewSink :=
  let sink := { sink with attached := true }
  match sink.leftOver with
  | some m => { sendMessage sink m false with leftOver := none }
  | none => sink

/-- True for the terminal messages of a request: an `addResponse` with `done`
or an `addError`. -/
def isTerminal : Msg → Bool
  | Msg.addResponse _ done _ _ _ => done
  | Msg.addError _ _ => true
  | _ => false

/-- Number of terminal messages in a publication list. -/
def countTerminal (ms : List SentMsg) : Nat :=
  (ms.filter (fun sm => isTerminal sm.1)).length

/-- Values carried by the `done` `addResponse` messages of a publication list. -/
def doneResponseValues (ms : List SentMsg) : List String :=
  ms.filterMap (fun sm =>
    match sm.1 with
    | Msg.addResponse v true _ _ _ => some v
    | _ => none)

/-- The `responseInMarkdown` field of an `addResponse` payload, `none` otherwise. -/
def addResponseRim : Msg → Option Bool
  | Msg.addResponse _ _ _ _ rim => some rim
  | _ => none

/-- All-unset provider state used to build concrete scenarios. -/
def baseState : ProviderState where
  subscribeToResponse := false
  autoScroll := false
  useAutoLogin := false
  useGpt3 := false
  chromiumPath := none
  profilePath := none
  model := none
  apiGpt3 := false
  apiGpt35 := false
  conversationId := none
  messageId := none
  proxyServer := none
  loginMethod := none
  authType := none
  questionCounter := 0
  inProgress := false
  hasAbortController := false
  aborted := false
  currentMessageId := ""
  response := ""

/-- Options of a plain free-text question. -/
def freeTextOptions : RequestOptions where
  command := "freeText"
  code := none
  previousAnswer := none
  language := none

/-! Concrete scenario states shared by several settlements. -/

/-- Provider state with the GPT-3.5 model `gpt-4` configured and its client present. -/
def stGpt4 : ProviderState :=
  { baseState with model := some "gpt-4", apiGpt35 := true, useGpt3 := true }

/-- Provider state with the legacy model `code-davinci-002` configured and the
GPT-3 client present. -/
def stCodex : ProviderState :=
  { baseState with model := some "code-davinci-002", apiGpt3 := true, useGpt3 := true }

/-- Abort error as the client rejects it: no HTTP response, no status code. -/
def abortError : ApiError := ⟨none, none, none, some "The user aborted a request."⟩

/-- C1. The source computes `hasContinuation` as split-parts-odd (line 387), which
is fence-count EVEN: the one-fence response "```code" does NOT trigger the
auto-continue offer, the two-fence response "```code```" DOES, and so does a plain
response with no fence at all — the opposite of the claim's odd-fence rule, and at
odds with the heuristic's purpose of closing a dangling fence. -/
theorem c1_fence_heuristic_inverted_on_code :
    hasContinuation "```code" = false ∧
    hasContinuation "```code```" = true ∧
    hasContinuation "plain text" = true ∧
    fenceCount "```code" = 1 ∧ fenceCount "```code```" = 2 ∧ fenceCount "plain text" = 0 := by
  decide

/-- C6. With `previousAnswer = "A"` and client text `"B"`, the joined text "AB" has
an odd number of split parts, so the inverted continuation heuristic of line 387
fires and line 390 appends a closing fence: the terminal `addResponse` carries
"AB \r\n(backticks)\r\n", not the exact concatenation "AB" the claim states. -/
theorem c6_continuation_join_at_failing_input :
    doneResponseValues
        (sendApiRequest stGpt4 "q" { freeTextOptions with previousAnswer := some "A" }
          ⟨true, "rid", Outcome.success "B" (some "c1") (some "m1") []⟩).2 =
      ["AB \r\n ```\r\n"] ∧
    ("AB \r\n ```\r\n" : String) ≠ "AB" := by
  decide

/-- C2 counterexample. A cancelled request publishes TWO terminal messages, not
exactly one: `stopGenerating` publishes a done `addResponse` and the rejected
client call then reaches the catch handler, which publishes an `addError`. -/
theorem c2_cancelled_run_two_terminal_messages :
    countTerminal
        (sendApiRequest stGpt4 "q" freeTextOptions
          ⟨true, "rid", Outcome.aborted [] [] abortError⟩).2 = 2 := by
  decide

/-- C3 counterexample. `clearSession` (line 167) discards only `apiGpt3`; with the
GPT-3.5 client active (`gpt-4` session), the client instance survives the call,
so "discards the active API client instance (whichever of the two client versions
is in use)" fails. -/
theorem c3_clearSession_keeps_gpt35_client :
    (clearSession stGpt4).1.apiGpt35 = true := by
  decide

/-- C3 as amended: `clearSession` always clears the in-flight flag (aborting any
live controller), discards the GPT-3 client, resets both continuation identifiers
to unset — but leaves the GPT-3.5 client instance untouched. -/
theorem c3_clearSession_resets_state (st : ProviderState) :
    (clearSession st).1.inProgress = false ∧
    (clearSession st).1.apiGpt3 = false ∧
    (clearSession st).1.conversationId = none ∧
    (clearSession st).1.messageId = none ∧
    (clearSession st).1.apiGpt35 = st.apiGpt35 ∧
    (clearSession st).1.aborted = (st.aborted || st.hasAbortController) := by
  simp [clearSession, stopGenerating]

/-- C4. The in-flight guard (lines 324-327): a `sendApiRequest` call while
`inProgress` is true returns before touching any field or publishing anything. -/
theorem c4_inflight_guard_noop (st : ProviderState) (prompt : String)
    (opts : RequestOptions) (env : ReqEnv) (h : st.inProgress = true) :
    sendApiRequest st prompt opts env = (st, []) := by
  simp [sendApiRequest, h]

/-- C4 witness: a concrete busy state is rejected unchanged, with no messages. -/
theorem c4_inflight_guard_noop_witness :
    ({ baseState with inProgress := true } : ProviderState).inProgress = true ∧
    sendApiRequest { baseState with inProgress := true } "x" freeTextOptions
        ⟨true, "rid", Outcome.failure [] abortError⟩ =
      ({ baseState with inProgress := true }, []) :=
  ⟨rfl, c4_inflight_guard_noop { baseState with inProgress := true } "x" freeTextOptions
    ⟨true, "rid", Outcome.failure [] abortError⟩ rfl⟩

/-- C5 counterexample. In a cancelled run where the client delivers one more
progress chunk after the abort, the publication list holds the terminal
`addResponse` that `stopGenerating` emitted at position 5 and a PARTIAL
`addResponse` ("late", done-less) at position 6 — a partial-text publication
after cancellation was signalled, with no cancelled-state check in the callback. -/
theorem c5_partial_published_after_abort :
    (sendApiRequest stGpt4 "q" freeTextOptions
        ⟨true, "rid", Outcome.aborted ["part1"] ["late"] abortError⟩).2.get? 5 =
      some (Msg.addResponse "part1" true (some "rid") false true, false) ∧
    (sendApiRequest stGpt4 "q" freeTextOptions
        ⟨true, "rid", Outcome.aborted ["part1"] ["late"] abortError⟩).2.get? 6 =
      some (Msg.addResponse "late" false none false true, false) := by
  decide

/-! Helper lemmas about the request pipeline. -/

/-- Canonical state after a successful `prepareConversation` with an available key:
the client matching the configured model class is present (lines 276-302). -/
def prepState (st : ProviderState) : ProviderState :=
  if isGpt35Model st then { st with apiGpt35 := true } else { st with apiGpt3 := true }

theorem prepare_apiKeyOk (st : ProviderState) :
    prepareConversation st false true =
      (true, if st.useGpt3 = true then prepState st else st,
       [(Msg.loginSuccessful st.useAutoLogin, true)]) := by
  obtain ⟨f1, f2, f3, g, f5, f6, f7, a3, a35, f10, f11, f12, f13, f14, f15, f16, f17, f18,
    f19, f20⟩ := st
  cases g <;>
    cases hb : isGpt35Model (ProviderState.mk f1 f2 f3 true f5 f6 f7 a3 a35 f10 f11 f12 f13 f14
        f15 f16 f17 f18 f19 f20) <;>
      cases a3 <;> cases a35 <;> simp_all [prepareConversation, prepState]

theorem prepare_preserves (st : ProviderState) (mc k : Bool) :
    (prepareConversation st mc k).2.1.conversationId = st.conversationId ∧
    (prepareConversation st mc k).2.1.messageId = st.messageId ∧
    (prepareConversation st mc k).2.1.model = st.model := by
  unfold prepareConversation
  split_ifs <;> simp

theorem prepare_msgs_no_addResponse (st : ProviderState) (mc k : Bool) :
    ∀ sm ∈ (prepareConversation st mc k).2.2, addResponseRim sm.1 = none := by
  unfold prepareConversation
  split_ifs <;> simp [addResponseRim]

theorem routeFor_prepState (st : ProviderState) :
    routeFor (prepState st) =
      if isGpt35Model st then Route.gpt35 else Route.gpt3 := by
  obtain ⟨f1, f2, f3, f4, f5, f6, f7, a3, a35, f10, f11, f12, f13, f14, f15, f16, f17, f18,
    f19, f20⟩ := st
  cases hb : isGpt35Model (ProviderState.mk f1 f2 f3 f4 f5 f6 f7 a3 a35 f10 f11 f12 f13 f14
      f15 f16 f17 f18 f19 f20) <;>
    simp_all [prepState, routeFor, isGpt35Model]

theorem prepState_proj (st : ProviderState) :
    (prepState st).useGpt3 = st.useGpt3 ∧
    (prepState st).useAutoLogin = st.useAutoLogin ∧
    (prepState st).autoScroll = st.autoScroll ∧
    (prepState st).model = st.model ∧
    (prepState st).conversationId = st.conversationId ∧
    (prepState st).messageId = st.messageId ∧
    (prepState st).response = st.response ∧
    (prepState st).currentMessageId = st.currentMessageId := by
  unfold prepState
  split <;> simp

theorem countTerminal_append (a b : List SentMsg) :
    countTerminal (a ++ b) = countTerminal a + countTerminal b := by
  simp [countTerminal, List.filter_append]

theorem countTerminal_progress (ps : List String) (idf : Option String) (a rim : Bool) :
    countTerminal (ps.map (progressMsg idf a rim)) = 0 := by
  induction ps with
  | nil => rfl
  | cons t rest ih =>
      simp only [countTerminal, progressMsg, isTerminal, List.map_cons, List.filter] at ih ⊢
      exact ih

theorem countTerminal_stop (st : ProviderState) :
    countTerminal (stopGenerating st).2 = 1 := by
  simp [stopGenerating, countTerminal, isTerminal, List.filter]

theorem countTerminal_runClientCall (st : ProviderState) (idf : Option String) (rim : Bool)
    (o : Outcome) :
    countTerminal (runClientCall st idf rim o).msgs =
      match o with
      | Outcome.aborted _ _ _ => 1
      | _ => 0 := by
  cases o <;>
    simp [runClientCall, countTerminal_append, countTerminal_progress, countTerminal_stop]

theorem countTerminal_requestTail (rim : Bool) (pa : Option String) (cr : ClientResult) :
    countTerminal (requestTail rim pa cr).2 = 1 := by
  obtain ⟨cst, cms, cerr⟩ := cr
  cases cerr <;> simp [requestTail, countTerminal, isTerminal, List.filter]

theorem requestTail_inProgress (rim : Bool) (pa : Option String) (cr : ClientResult) :
    (requestTail rim pa cr).1.inProgress = false := by
  obtain ⟨cst, cms, cerr⟩ := cr
  cases cerr <;> simp [requestTail]

/-- Canonical description of a `sendApiRequest` run that passes the in-flight guard
(`inProgress` false), with a resolvable API key and `useGpt3` set (as `setMethod`
forces): the published list is the login/progress/question head, the client-phase
messages, and the success-or-catch tail. -/
theorem sendApiRequest_run (st : ProviderState) (prompt : String) (opts : RequestOptions)
    (env : ReqEnv) (h1 : st.inProgress = false) (h2 : env.apiKeyOk = true)
    (h3 : st.useGpt3 = true) :
    sendApiRequest st prompt opts env =
      (let stq := { st with questionCounter := st.questionCounter + 1 }
       let st1 :=
         { prepState stq with
           response := "", inProgress := true, hasAbortController := true, aborted := false,
           currentMessageId := env.freshId }
       let rim := !isCodexModel st1
       let cr := clientPhase st1 (processQuestion prompt opts.code opts.language) rim env.outcome
       let tl := requestTail rim opts.previousAnswer cr
       (tl.1,
        [(Msg.loginSuccessful st.useAutoLogin, true),
         (Msg.showInProgress true true, false),
         (Msg.addQuestion prompt opts.code st.autoScroll, false)] ++ cr.msgs ++ tl.2)) := by
  unfold sendApiRequest
  simp only [h1, h2, prepare_apiKeyOk, h3]
  simp [h3]
  constructor
  · rw [(prepState_proj _).1]
  · rw [(prepState_proj _).2.2.1]

theorem countTerminal_clientPhase (st : ProviderState) (q : String) (rim : Bool) (o : Outcome)
    (hu : st.useGpt3 = true) (hr : routeFor st ≠ Route.noClient) :
    countTerminal (clientPhase st q rim o).msgs =
      match o with
      | Outcome.aborted _ _ _ => 1
      | _ => 0 := by
  unfold clientPhase
  rw [hu]
  cases hR : routeFor st
  · simp [countTerminal_runClientCall]
  · simp [countTerminal_runClientCall]
  · exact absurd hR hr

/-- C2 as amended: after a `sendApiRequest` call that passes the in-flight guard
with a resolvable API key (and `useGpt3` set, as `setMethod` forces), `inProgress`
is false once the call resolves; a successful or failed (non-cancelled) request
publishes exactly one terminal message, but a CANCELLED request publishes two:
the done `addResponse` from `stopGenerating` plus the `addError` from the catch
handler that receives the abort rejection. -/
theorem c2_terminal_message_accounting (st : ProviderState) (prompt : String)
    (opts : RequestOptions) (env : ReqEnv) (h1 : st.inProgress = false)
    (h2 : env.apiKeyOk = true) (h3 : st.useGpt3 = true) :
    (sendApiRequest st prompt opts env).1.inProgress = false ∧
    countTerminal (sendApiRequest st prompt opts env).2 =
      (match env.outcome with
       | Outcome.aborted _ _ _ => 2
       | _ => 1) := by
  rw [sendApiRequest_run st prompt opts env h1 h2 h3]
  dsimp only
  refine ⟨requestTail_inProgress _ _ _, ?_⟩
  rw [countTerminal_append, countTerminal_append, countTerminal_requestTail,
    countTerminal_clientPhase _ _ _ _ ?hu ?hr]
  case hu => exact (prepState_proj _).1.trans h3
  case hr =>
    show routeFor (prepState { st with questionCounter := st.questionCounter + 1 }) ≠
      Route.noClient
    rw [routeFor_prepState]
    split <;> simp
  cases env.outcome <;> simp [countTerminal, isTerminal, List.filter]

/-- C2 witness: a concrete successful run resolves with `inProgress` false and one
terminal message. -/
theorem c2_terminal_message_accounting_witness :
    stGpt4.inProgress = false ∧
    (⟨true, "rid", Outcome.success "B" (some "c1") (some "m1") []⟩ : ReqEnv).apiKeyOk = true ∧
    stGpt4.useGpt3 = true ∧
    ((sendApiRequest stGpt4 "q" freeTextOptions
        ⟨true, "rid", Outcome.success "B" (some "c1") (some "m1") []⟩).1.inProgress = false ∧
     countTerminal (sendApiRequest stGpt4 "q" freeTextOptions
        ⟨true, "rid", Outcome.success "B" (some "c1") (some "m1") []⟩).2 = 1) :=
  ⟨rfl, rfl, rfl,
   c2_terminal_message_accounting stGpt4 "q" freeTextOptions
     ⟨true, "rid", Outcome.success "B" (some "c1") (some "m1") []⟩ rfl rfl rfl⟩

theorem applyProgress_ids (st : ProviderState) (ps : List String) :
    (applyProgress st ps).conversationId = st.conversationId ∧
    (applyProgress st ps).messageId = st.messageId := by
  unfold applyProgress
  cases ps.getLast? <;> simp

theorem stopGenerating_ids (st : ProviderState) :
    (stopGenerating st).1.conversationId = st.conversationId ∧
    (stopGenerating st).1.messageId = st.messageId := by
  simp [stopGenerating]

theorem runClientCall_ids (st : ProviderState) (idf : Option String) (rim : Bool)
    (o : Outcome) (h : o.isSuccess = false) :
    (runClientCall st idf rim o).st.conversationId = st.conversationId ∧
    (runClientCall st idf rim o).st.messageId = st.messageId := by
  cases o with
  | success t c m ps => simp [Outcome.isSuccess] at h
  | failure ps e =>
      exact applyProgress_ids st ps
  | aborted psB psA e =>
      unfold runClientCall
      dsimp only
      constructor
      · rw [(applyProgress_ids _ _).1, (stopGenerating_ids _).1, (applyProgress_ids _ _).1]
      · rw [(applyProgress_ids _ _).2, (stopGenerating_ids _).2, (applyProgress_ids _ _).2]

theorem clientPhase_ids (st : ProviderState) (q : String) (rim : Bool) (o : Outcome)
    (h : o.isSuccess = false) :
    (clientPhase st q rim o).st.conversationId = st.conversationId ∧
    (clientPhase st q rim o).st.messageId = st.messageId := by
  unfold clientPhase
  cases hu : st.useGpt3
  · simp [hu]
  · simp only [hu]
    cases routeFor st
    · exact runClientCall_ids _ _ _ _ h
    · exact runClientCall_ids _ _ _ _ h
    · exact ⟨rfl, rfl⟩

theorem requestTail_ids (rim : Bool) (pa : Option String) (cr : ClientResult) :
    (requestTail rim pa cr).1.conversationId = cr.st.conversationId ∧
    (requestTail rim pa cr).1.messageId = cr.st.messageId := by
  obtain ⟨cst, cms, cerr⟩ := cr
  cases cerr <;> cases pa <;> simp [requestTail] <;> split <;> simp

/-- C9. If the client call does not resolve successfully (it throws, including the
abort rejection after `stopGenerating`), the continuation identifiers
`conversationId` and `messageId` keep exactly their pre-request values: they are
only reassigned by the destructuring after a successful `await` (lines 368/370). -/
theorem c9_ids_preserved_on_throw (st : ProviderState) (prompt : String)
    (opts : RequestOptions) (env : ReqEnv) (h : env.outcome.isSuccess = false) :
    (sendApiRequest st prompt opts env).1.conversationId = st.conversationId ∧
    (sendApiRequest st prompt opts env).1.messageId = st.messageId := by
  unfold sendApiRequest
  cases hp : st.inProgress
  · rw [if_neg (by simp [hp])]
    dsimp only
    cases hpr : (prepareConversation
        { st with questionCounter := st.questionCounter + 1, inProgress := false }
        false env.apiKeyOk).1
    · rw [if_pos (by simp [hpr])]
      exact ⟨(prepare_preserves _ _ _).1, (prepare_preserves _ _ _).2.1⟩
    · rw [if_neg (by simp [hpr])]
      dsimp only
      constructor
      · rw [(requestTail_ids _ _ _).1, (clientPhase_ids _ _ _ _ h).1]
        exact (prepare_preserves _ _ _).1
      · rw [(requestTail_ids _ _ _).2, (clientPhase_ids _ _ _ _ h).2]
        exact (prepare_preserves _ _ _).2.1
  · rw [if_pos rfl]
    exact ⟨rfl, rfl⟩

/-- C9 witness: in a failed run the pre-request identifiers survive. -/
theorem c9_ids_preserved_on_throw_witness :
    (⟨true, "rid", Outcome.failure [] ⟨some 429, some "Too Many Requests", none, none⟩⟩ :
        ReqEnv).outcome.isSuccess = false ∧
    ((sendApiRequest { stGpt4 with conversationId := some "c0", messageId := some "m0" } "q"
        freeTextOptions
        ⟨true, "rid", Outcome.failure [] ⟨some 429, some "Too Many Requests", none, none⟩⟩).1.conversationId =
      some "c0" ∧
     (sendApiRequest { stGpt4 with conversationId := some "c0", messageId := some "m0" } "q"
        freeTextOptions
        ⟨true, "rid", Outcome.failure [] ⟨some 429, some "Too Many Requests", none, none⟩⟩).1.messageId =
      some "m0") :=
  ⟨rfl,
   c9_ids_preserved_on_throw { stGpt4 with conversationId := some "c0", messageId := some "m0" }
     "q" freeTextOptions
     ⟨true, "rid", Outcome.failure [] ⟨some 429, some "Too Many Requests", none, none⟩⟩ rfl⟩

theorem isCodexModel_applyProgress (st : ProviderState) (ps : List String) :
    isCodexModel (applyProgress st ps) = isCodexModel st := by
  unfold applyProgress
  cases ps.getLast? <;> rfl

theorem isCodexModel_prepState (st : ProviderState) :
    isCodexModel (prepState st) = isCodexModel st := by
  unfold prepState
  split <;> rfl

theorem addResponseRim_progress (ps : List String) (idf : Option String) (a rim : Bool) :
    ∀ sm ∈ ps.map (progressMsg idf a rim), ∀ b, addResponseRim sm.1 = some b → b = rim := by
  intro sm hm b hb
  obtain ⟨t, _, rfl⟩ := List.mem_map.1 hm
  simp [progressMsg, addResponseRim] at hb
  exact hb.symm

theorem addResponseRim_stop (st : ProviderState) :
    ∀ sm ∈ (stopGenerating st).2, ∀ b, addResponseRim sm.1 = some b → b = !isCodexModel st := by
  intro sm hm b hb
  simp only [stopGenerating, List.mem_cons, List.mem_singleton, List.not_mem_nil,
    or_false] at hm
  rcases hm with h | h <;> subst h <;> simp [addResponseRim] at hb
  have h2 : (!b) = isCodexModel st := hb.symm
  rw [← h2, Bool.not_not]

theorem addResponseRim_runClientCall (st : ProviderState) (idf : Option String) (rim : Bool)
    (o : Outcome) (hrim : rim = !isCodexModel st) :
    ∀ sm ∈ (runClientCall st idf rim o).msgs, ∀ b, addResponseRim sm.1 = some b → b = rim := by
  intro sm hm b hb
  cases o with
  | success t c m ps => exact addResponseRim_progress ps idf st.autoScroll rim sm hm b hb
  | failure ps e => exact addResponseRim_progress ps idf st.autoScroll rim sm hm b hb
  | aborted psB psA e =>
      dsimp only [runClientCall] at hm
      rcases List.mem_append.1 hm with hm1 | hm2
      · rcases List.mem_append.1 hm1 with hp1 | hstop
        · exact addResponseRim_progress _ _ _ _ sm hp1 b hb
        · have hbv := addResponseRim_stop _ sm hstop b hb
          rw [hbv, isCodexModel_applyProgress, hrim]
      · exact addResponseRim_progress _ _ _ _ sm hm2 b hb

theorem addResponseRim_clientPhase (st : ProviderState) (q : String) (rim : Bool) (o : Outcome)
    (hrim : rim = !isCodexModel st) :
    ∀ sm ∈ (clientPhase st q rim o).msgs, ∀ b, addResponseRim sm.1 = some b → b = rim := by
  unfold clientPhase
  cases hu : st.useGpt3
  · simp
  · cases routeFor st
    · exact addResponseRim_runClientCall st st.conversationId rim o hrim
    · exact addResponseRim_runClientCall st st.messageId rim o hrim
    · simp

theorem addResponseRim_requestTail (rim : Bool) (pa : Option String) (cr : ClientResult) :
    ∀ sm ∈ (requestTail rim pa cr).2, ∀ b, addResponseRim sm.1 = some b → b = rim := by
  intro sm hm b hb
  obtain ⟨cst, cms, cerr⟩ := cr
  cases cerr <;>
    simp only [requestTail, List.mem_cons, List.mem_singleton, List.not_mem_nil,
      or_false] at hm <;>
    rcases hm with h | h <;> subst h <;> simp [addResponseRim] at hb
  exact hb.symm

/-- Every `addResponse` a `sendApiRequest` run publishes carries
`responseInMarkdown = !isCodexModel` of the caller's state (line 339 for the
in-request messages; lines 160-161 for the `stopGenerating` message). -/
theorem sendApiRequest_rims (st : ProviderState) (prompt : String) (opts : RequestOptions)
    (env : ReqEnv) :
    ∀ sm ∈ (sendApiRequest st prompt opts env).2, ∀ b,
      addResponseRim sm.1 = some b → b = !isCodexModel st := by
  unfold sendApiRequest
  cases hp : st.inProgress
  · rw [if_neg (by simp [hp])]
    dsimp only
    cases hpr : (prepareConversation
        { st with questionCounter := st.questionCounter + 1, inProgress := false }
        false env.apiKeyOk).1
    · rw [if_pos (by simp [hpr])]
      intro sm hm b hb
      rw [prepare_msgs_no_addResponse _ _ _ sm hm] at hb
      cases hb
    · rw [if_neg (by simp [hpr])]
      dsimp only
      intro sm hm b hb
      have hcx : isCodexModel
          { (prepareConversation
              { st with questionCounter := st.questionCounter + 1, inProgress := false }
              false env.apiKeyOk).2.1 with
            response := "", inProgress := true, hasAbortController := true, aborted := false,
            currentMessageId := env.freshId } = isCodexModel st := by
        show isCodexModel (prepareConversation
            { st with questionCounter := st.questionCounter + 1, inProgress := false }
            false env.apiKeyOk).2.1 = isCodexModel st
        simp [isCodexModel, (prepare_preserves _ _ _).2.2]
      rcases List.mem_append.1 hm with hm1 | htl
      · rcases List.mem_append.1 hm1 with hh | hc
        · rcases List.mem_append.1 hh with hpp | hfix
          · rw [prepare_msgs_no_addResponse _ _ _ sm hpp] at hb
            cases hb
          · simp only [List.mem_cons, List.mem_singleton, List.not_mem_nil, or_false] at hfix
            rcases hfix with h | h <;> subst h <;> simp [addResponseRim] at hb
        · have := addResponseRim_clientPhase _ _ _ _ rfl sm hc b hb
          rw [this, hcx]
      · have := addResponseRim_requestTail _ _ _ sm htl b hb
        rw [this, hcx]
  · rw [if_pos rfl]
    intro sm hm
    cases hm

theorem strStartsWith_head_ne (s p q : String) (a c : Char) (ps qs : List Char)
    (hp : p.data = a :: ps) (hq : q.data = c :: qs) (hac : a ≠ c)
    (h : strStartsWith s p = true) : strStartsWith s q = false := by
  unfold strStartsWith at h ⊢
  rw [hp] at h
  rw [hq]
  cases hd : s.data with
  | nil => rw [hd] at h; simp [List.isPrefixOf] at h
  | cons x xs =>
      rw [hd] at h
      simp only [List.isPrefixOf, Bool.and_eq_true, beq_iff_eq] at h
      simp only [List.isPrefixOf, Bool.and_eq_false_iff]
      left
      simp only [beq_eq_false_iff_ne, ne_eq]
      exact fun hcx => hac (h.1.trans hcx.symm)

theorem code_prefix_not_gpt (s : String) (h : strStartsWith s "code-" = true) :
    strStartsWith s "gpt-" = false :=
  strStartsWith_head_ne s "code-" "gpt-" 'c' 'g' ['o', 'd', 'e', '-'] ['p', 't', '-']
    (by decide) (by decide) (by decide) h

theorem gpt_prefix_not_code (s : String) (h : strStartsWith s "gpt-" = true) :
    strStartsWith s "code-" = false :=
  strStartsWith_head_ne s "gpt-" "code-" 'g' 'c' ['p', 't', '-'] ['o', 'd', 'e', '-']
    (by decide) (by decide) (by decide) h

/-- C8. Model-class routing: a model name with the code-model marker "code-" makes
line 369 select the legacy GPT-3 client after `prepareConversation`, and every
`addResponse` published in the run carries `responseInMarkdown = false`; a name
with the "gpt-" marker makes line 357 select the newer client, and every
`addResponse` carries `responseInMarkdown = true`. -/
theorem c8_model_routing (st : ProviderState) (name prompt : String) (opts : RequestOptions)
    (env : ReqEnv) (hm : st.model = some name) (h1 : st.inProgress = false)
    (h2 : env.apiKeyOk = true) (h3 : st.useGpt3 = true) :
    (strStartsWith name "code-" = true →
      routeFor (prepareConversation { st with questionCounter := st.questionCounter + 1 }
          false true).2.1 = Route.gpt3 ∧
      ∀ sm ∈ (sendApiRequest st prompt opts env).2, ∀ b,
        addResponseRim sm.1 = some b → b = false) ∧
    (strStartsWith name "gpt-" = true →
      routeFor (prepareConversation { st with questionCounter := st.questionCounter + 1 }
          false true).2.1 = Route.gpt35 ∧
      ∀ sm ∈ (sendApiRequest st prompt opts env).2, ∀ b,
        addResponseRim sm.1 = some b → b = true) := by
  have hgpt : isGpt35Model { st with questionCounter := st.questionCounter + 1 } =
      strStartsWith name "gpt-" := by
    simp [isGpt35Model, hm]
  constructor
  · intro hcode
    constructor
    · rw [prepare_apiKeyOk]
      dsimp only
      rw [if_pos (show ({ st with questionCounter := st.questionCounter + 1 } :
          ProviderState).useGpt3 = true from h3)]
      rw [routeFor_prepState, hgpt, code_prefix_not_gpt name hcode]
      simp
    · intro sm hmem b hb
      rw [sendApiRequest_rims st prompt opts env sm hmem b hb]
      simp [isCodexModel, hm, hcode]
  · intro hgp
    constructor
    · rw [prepare_apiKeyOk]
      dsimp only
      rw [if_pos (show ({ st with questionCounter := st.questionCounter + 1 } :
          ProviderState).useGpt3 = true from h3)]
      rw [routeFor_prepState, hgpt, hgp]
      simp
    · intro sm hmem b hb
      rw [sendApiRequest_rims st prompt opts env sm hmem b hb]
      simp [isCodexModel, hm, gpt_prefix_not_code name hgp]

/-- C8 witness: "code-davinci-002" takes the legacy route with plain-text
rendering; "gpt-4" takes the newer route with markdown rendering. -/
theorem c8_model_routing_witness :
    stCodex.model = some "code-davinci-002" ∧ stCodex.inProgress = false ∧
    (⟨true, "rid", Outcome.success "B" none none []⟩ : ReqEnv).apiKeyOk = true ∧
    stCodex.useGpt3 = true ∧
    strStartsWith "code-davinci-002" "code-" = true ∧
    stGpt4.model = some "gpt-4" ∧ stGpt4.inProgress = false ∧ stGpt4.useGpt3 = true ∧
    strStartsWith "gpt-4" "gpt-" = true ∧
    (routeFor (prepareConversation
        { stCodex with questionCounter := stCodex.questionCounter + 1 } false true).2.1 =
      Route.gpt3 ∧
     ∀ sm ∈ (sendApiRequest stCodex "q" freeTextOptions
        ⟨true, "rid", Outcome.success "B" none none []⟩).2, ∀ b,
       addResponseRim sm.1 = some b → b = false) ∧
    (routeFor (prepareConversation
        { stGpt4 with questionCounter := stGpt4.questionCounter + 1 } false true).2.1 =
      Route.gpt35 ∧
     ∀ sm ∈ (sendApiRequest stGpt4 "q" freeTextOptions
        ⟨true, "rid", Outcome.success "B" none none []⟩).2, ∀ b,
       addResponseRim sm.1 = some b → b = true) :=
  ⟨rfl, rfl, rfl, rfl, by decide, rfl, rfl, rfl, by decide,
   (c8_model_routing stCodex "code-davinci-002" "q" freeTextOptions
      ⟨true, "rid", Outcome.success "B" none none []⟩ rfl rfl rfl rfl).1 (by decide),
   (c8_model_routing stGpt4 "gpt-4" "q" freeTextOptions
      ⟨true, "rid", Outcome.success "B" none none []⟩ rfl rfl rfl rfl).2 (by decide)⟩

theorem applyProgress_proj (st : ProviderState) (ps : List String) :
    (applyProgress st ps).autoScroll = st.autoScroll ∧
    (applyProgress st ps).currentMessageId = st.currentMessageId ∧
    (applyProgress st ps).model = st.model := by
  unfold applyProgress
  cases ps.getLast? <;> simp

theorem late_chunk_decomposition (s1 : ProviderState) (hd : List SentMsg) (q : String)
    (psB : List String) (t : String) (psA : List String) (e : ApiError) (pa : Option String)
    (hu : s1.useGpt3 = true) (hr : routeFor s1 ≠ Route.noClient) :
    ∃ pre post v idStop idPart a rim2,
      (hd ++ (clientPhase s1 q (!isCodexModel s1) (Outcome.aborted psB (t :: psA) e)).msgs) ++
        (requestTail (!isCodexModel s1) pa
          (clientPhase s1 q (!isCodexModel s1) (Outcome.aborted psB (t :: psA) e))).2 =
        pre ++ (Msg.addResponse v true idStop a rim2, false) ::
          (Msg.addResponse t false idPart a rim2, false) :: post := by
  unfold clientPhase
  rw [if_pos hu]
  cases hR : routeFor s1 with
  | gpt35 =>
      dsimp only [runClientCall, List.map]
      generalize hS : applyProgress s1 psB = S
      have hA : S.autoScroll = s1.autoScroll := by rw [← hS]; exact (applyProgress_proj s1 psB).1
      have hM : S.model = s1.model := by rw [← hS]; exact (applyProgress_proj s1 psB).2.2
      dsimp only [stopGenerating, requestTail]
      generalize applyProgress
        { S with aborted := S.aborted || S.hasAbortController, inProgress := false }
        (t :: psA) = T
      refine ⟨hd ++ psB.map (progressMsg s1.conversationId s1.autoScroll (!isCodexModel s1)) ++
          [(Msg.showInProgress false false, false)],
        psA.map (progressMsg s1.conversationId s1.autoScroll (!isCodexModel s1)) ++
          [(Msg.addError (errorText T e) T.autoScroll, false),
           (Msg.showInProgress false false, false)],
        S.response, some S.currentMessageId, s1.conversationId, s1.autoScroll,
        !isCodexModel s1, ?_⟩
      simp [List.append_assoc, hA, isCodexModel, hM, progressMsg]
  | gpt3 =>
      dsimp only [runClientCall, List.map]
      generalize hS : applyProgress s1 psB = S
      have hA : S.autoScroll = s1.autoScroll := by rw [← hS]; exact (applyProgress_proj s1 psB).1
      have hM : S.model = s1.model := by rw [← hS]; exact (applyProgress_proj s1 psB).2.2
      dsimp only [stopGenerating, requestTail]
      generalize applyProgress
        { S with aborted := S.aborted || S.hasAbortController, inProgress := false }
        (t :: psA) = T
      refine ⟨hd ++ psB.map (progressMsg s1.messageId s1.autoScroll (!isCodexModel s1)) ++
          [(Msg.showInProgress false false, false)],
        psA.map (progressMsg s1.messageId s1.autoScroll (!isCodexModel s1)) ++
          [(Msg.addError (errorText T e) T.autoScroll, false),
           (Msg.showInProgress false false, false)],
        S.response, some S.currentMessageId, s1.messageId, s1.autoScroll,
        !isCodexModel s1, ?_⟩
      simp [List.append_assoc, hA, isCodexModel, hM, progressMsg]
  | noClient => exact absurd hR hr

/-- C5 as amended: the `onProgress` callbacks (lines 363-366 and 375-378) perform
no cancelled-state check before publishing: whenever the client delivers a
progress chunk after `stopGenerating` has aborted the request (cancellation being
cooperative), the run still publishes that partial, done-less `addResponse`, right
after the terminal `addResponse` that `stopGenerating` emitted. Suppression of
late partials depends entirely on the client not invoking the callback again. -/
theorem c5_progress_callback_unchecked (st : ProviderState) (prompt : String)
    (opts : RequestOptions) (env : ReqEnv) (psB : List String) (t : String)
    (psA : List String) (e : ApiError) (h1 : st.inProgress = false)
    (h2 : env.apiKeyOk = true) (h3 : st.useGpt3 = true)
    (ho : env.outcome = Outcome.aborted psB (t :: psA) e) :
    ∃ pre post v idStop idPart a rim2,
      (sendApiRequest st prompt opts env).2 =
        pre ++ (Msg.addResponse v true idStop a rim2, false) ::
          (Msg.addResponse t false idPart a rim2, false) :: post := by
  rw [sendApiRequest_run st prompt opts env h1 h2 h3]
  dsimp only
  rw [ho]
  refine late_chunk_decomposition _ _ _ _ _ _ _ _ ?hu ?hr
  case hu => exact (prepState_proj _).1.trans h3
  case hr =>
    show routeFor (prepState { st with questionCounter := st.questionCounter + 1 }) ≠
      Route.noClient
    rw [routeFor_prepState]
    split <;> simp

/-- C5 witness for the amended statement, at the inputs of the counterexample run. -/
theorem c5_progress_callback_unchecked_witness :
    stGpt4.inProgress = false ∧ stGpt4.useGpt3 = true ∧
    (⟨true, "rid", Outcome.aborted ["part1"] ["late"] abortError⟩ : ReqEnv).outcome =
      Outcome.aborted ["part1"] ("late" :: []) abortError ∧
    (∃ pre post v idStop idPart a rim2,
      (sendApiRequest stGpt4 "q" freeTextOptions
          ⟨true, "rid", Outcome.aborted ["part1"] ["late"] abortError⟩).2 =
        pre ++ (Msg.addResponse v true idStop a rim2, false) ::
          (Msg.addResponse "late" false idPart a rim2, false) :: post) :=
  ⟨rfl, rfl, rfl,
   c5_progress_callback_unchecked stGpt4 "q" freeTextOptions
     ⟨true, "rid", Outcome.aborted ["part1"] ["late"] abortError⟩ ["part1"] "late" [] abortError
     rfl rfl rfl rfl⟩

theorem sendMessage_detached_fold (ms : List Msg) (sink : WebViewSink) (m : Msg)
    (h : ms.getLast? = some m) (ha : sink.attached = false) :
    ms.foldl (fun s x => sendMessage s x false) sink =
      ⟨false, sink.delivered, some m⟩ := by
  induction ms generalizing sink m with
  | nil => simp at h
  | cons m0 rest ih =>
      cases rest with
      | nil =>
          simp at h
          subst h
          simp [sendMessage, ha]
      | cons m1 rest2 =>
          rw [List.foldl_cons]
          have hstep : sendMessage sink m0 false = ⟨false, sink.delivered, some m0⟩ := by
            simp [sendMessage, ha]
          rw [hstep]
          rw [List.getLast?_cons_cons] at h
          exact ih ⟨false, sink.delivered, some m0⟩ m h rfl

/-- C7. Last-write-wins buffering of size one: for any nonempty sequence of
messages passed to `sendMessage` while the webview is detached, nothing is
delivered, only the last message is retained in `leftOverMessage`, and the
attachment step of `resolveWebviewView` delivers exactly that one message and
clears the buffer. -/
theorem c7_leftover_last_write_wins (ms : List Msg) (sink : WebViewSink) (m : Msg)
    (h : ms.getLast? = some m) (ha : sink.attached = false) :
    (ms.foldl (fun s x => sendMessage s x false) sink).delivered = sink.delivered ∧
    (ms.foldl (fun s x => sendMessage s x false) sink).leftOver = some m ∧
    (resolveWebviewView (ms.foldl (fun s x => sendMessage s x false) sink)).delivered =
      sink.delivered ++ [m] ∧
    (resolveWebviewView (ms.foldl (fun s x => sendMessage s x false) sink)).leftOver = none := by
  rw [sendMessage_detached_fold ms sink m h ha]
  refine ⟨rfl, rfl, ?_, ?_⟩ <;> simp [resolveWebviewView, sendMessage]

/-- C7 witness: publishing M1 then M2 while detached, then attaching, delivers
only M2. -/
theorem c7_leftover_last_write_wins_witness :
    ([Msg.addQuestion "m1" none false, Msg.addQuestion "m2" none false].getLast? =
      some (Msg.addQuestion "m2" none false)) ∧
    (⟨false, [], none⟩ : WebViewSink).attached = false ∧
    (([Msg.addQuestion "m1" none false, Msg.addQuestion "m2" none false].foldl
        (fun s x => sendMessage s x false) ⟨false, [], none⟩).delivered = [] ∧
     ([Msg.addQuestion "m1" none false, Msg.addQuestion "m2" none false].foldl
        (fun s x => sendMessage s x false) ⟨false, [], none⟩).leftOver =
       some (Msg.addQuestion "m2" none false) ∧
     (resolveWebviewView ([Msg.addQuestion "m1" none false,
        Msg.addQuestion "m2" none false].foldl
        (fun s x => sendMessage s x false) ⟨false, [], none⟩)).delivered =
       [] ++ [Msg.addQuestion "m2" none false] ∧
     (resolveWebviewView ([Msg.addQuestion "m1" none false,
        Msg.addQuestion "m2" none false].foldl
        (fun s x => sendMessage s x false) ⟨false, [], none⟩)).leftOver = none) :=
  ⟨rfl, rfl,
   c7_leftover_last_write_wins [Msg.addQuestion "m1" none false, Msg.addQuestion "m2" none false]
     ⟨false, [], none⟩ (Msg.addQuestion "m2" none false) rfl rfl⟩

/-- C10. `stopGenerating` is never silent: it always publishes exactly a
`showInProgress` (inProgress false) and a terminal done `addResponse` carrying
the accumulated response text, even when no request is active; `clearSession`
publishes the same pair; each configuration setter (`setMethod`, `setAuthType`,
`setChromeExecutablePath`, `setProfilePath`) triggers it through `clearSession`;
and construction runs those setters, publishing the pair four times. -/
theorem c10_stop_always_publishes (st : ProviderState) (cfg : ExtensionConfig) :
    (stopGenerating st).2 =
      [(Msg.showInProgress false false, false),
       (Msg.addResponse st.response true (some st.currentMessageId) st.autoScroll
         (!isCodexModel st), false)] ∧
    (clearSession st).2 = (stopGenerating st).2 ∧
    (setMethod cfg st).2 = (stopGenerating st).2 ∧
    (setAuthType cfg st).2 = (stopGenerating st).2 ∧
    (setChromeExecutablePath cfg st).2 = (stopGenerating st).2 ∧
    (setProfilePath cfg st).2 = (stopGenerating st).2 ∧
    (construct cfg).2 =
      (stopGenerating (initialState cfg)).2 ++ (stopGenerating (initialState cfg)).2 ++
        (stopGenerating (initialState cfg)).2 ++ (stopGenerating (initialState cfg)).2 :=
  ⟨rfl, rfl, rfl, rfl, rfl, rfl, rfl⟩
